import Mathlib

/-!
Verification of the streaming forecast-and-alert pipeline of the repository
(`Broker_Forecasting_Temperature_file.py`, `Second_IoT_Screen.py`,
`mqtt_listener.py`, `mqtt_producer.py`).

Shallow embedding conventions:
* Python floats are modelled as `ℚ` — every numeric literal the claims touch
  (5, 10, 18, 20, 25, 27, 30, 35) is exactly representable in binary floating
  point, so all comparisons agree with the rational ones.
* `datetime` instants are modelled as `ℤ` (seconds); `timedelta(days = i)`
  is `i * one_day`.
* A Python `deque(maxlen = L)` holding its elements oldest-first is a
  `List`; its `append` is `dequeAppend`.
-/

namespace IoTPipeline

/-- `lookback = 10` (`Broker_Forecasting_Temperature_file.py`, line 22). -/
def lookback : Nat := 10

/-- `number_of_future_forecasts = 10` (line 23). -/
def number_of_future_forecasts : Nat := 10

/-- One calendar day as a step on the `ℤ`-seconds model of `datetime`;
`timedelta(days = i)` is `i * one_day`. -/
def one_day : ℤ := 86400

/-- `deque(maxlen = maxlen).append x` on a deque currently holding `q`
(oldest first): the element is appended and, when capacity is exceeded,
the excess is discarded from the opposite (oldest) end. -/
def dequeAppend {α : Type} (maxlen : Nat) (q : List α) (x : α) : List α :=
  let q2 := q ++ [x]
  if maxlen < q2.length then q2.drop (q2.length - maxlen) else q2

/-- The contents of a `deque(maxlen = maxlen)` after appending the readings
of `readings` one by one, starting from the empty deque — the per-sensor
Window of `temperatures` / `timestamps` (lines 24–25, appended at 107–108). -/
def windowAfter {α : Type} (maxlen : Nat) (readings : List α) : List α :=
  readings.foldl (dequeAppend maxlen) []

/-- The loop body state of `predict_with_loaded_model` (lines 77–82):
`bufAt model w i` is the contents of `last_input` before step `i`
(`bufAt model w 0` is the initial window `w`); each step appends the
model's prediction and drops the oldest entry. -/
def bufAt (model : List ℚ → ℚ) (w : List ℚ) : Nat → List ℚ
  | 0 => w
  | i + 1 => (bufAt model w i).drop 1 ++ [model (bufAt model w i)]

/-- The rolling-forecast loop of `predict_with_loaded_model` (lines 77–82):
`n` remaining steps on current buffer `buf`; each step records
`model buf` as the next forecast and slides the buffer. -/
def rollLoop (model : List ℚ → ℚ) : Nat → List ℚ → List ℚ
  | 0, _ => []
  | n + 1, buf => model buf :: rollLoop model n (buf.drop 1 ++ [model buf])

/-- The scaler loaded alongside the model: `transform` and
`inverse_transform` act elementwise on the data (lines 73, 86). -/
structure Scaler where
  transform : ℚ → ℚ
  inverse_transform : ℚ → ℚ

/-- `predict_with_loaded_model(model, scaler, new_data, lookback)`
(lines 63–87): scale the input window, run the rolling forecast loop for
`number_of_future_forecasts` steps, inverse-transform the outputs. -/
def predict_with_loaded_model (model : List ℚ → ℚ) (scaler : Scaler)
    (new_data : List ℚ) : List ℚ :=
  let scaled_new_data := new_data.map scaler.transform
  let future_forecasts := rollLoop model number_of_future_forecasts scaled_new_data
  future_forecasts.map scaler.inverse_transform

/-- The future-timestamp loop of `on_message`
(`Broker_Forecasting_Temperature_file.py`, lines 124–127):
`for i in range(1, number_of_future_forecasts + 1): append(last + timedelta(days = i))`.
`List.range H` enumerates `0..H-1`, so the offset is `(i + 1) * one_day`. -/
def future_timestamps_from (last_datetime : ℤ) : List ℤ :=
  (List.range number_of_future_forecasts).map
    (fun i : Nat => last_datetime + ((i : ℤ) + 1) * one_day)

/-! ### Threshold classifier (`Second_IoT_Screen.py`) -/

/-- `LOW_WARNING_THRESHOLD = 18.0` (`Second_IoT_Screen.py`, line 22). -/
def LOW_WARNING_THRESHOLD : ℚ := 18

/-- `LOW_ERROR_THRESHOLD = 10.0` (line 23). -/
def LOW_ERROR_THRESHOLD : ℚ := 10

/-- `HIGH_WARNING_THRESHOLD = 25.0` (line 24). -/
def HIGH_WARNING_THRESHOLD : ℚ := 25

/-- `HIGH_ERROR_THRESHOLD = 30.0` (line 25). -/
def HIGH_ERROR_THRESHOLD : ℚ := 30

/-- The `alert_status` strings of `check_thresholds`
(`'normal'`, `'warning'`, `'error'`, line 99). -/
inductive Severity where
  | normal
  | warning
  | error
deriving DecidableEq, Repr

/-- The content of one violation message string such as
`f"{value_type}: {value:.2f}°C > {HIGH_ERROR_THRESHOLD}°C"`
(lines 125–131): the value's label, the value, the threshold named in the
message, and whether the breach is above (`>`) or below (`<`) it.
Decimal rendering of the value is presentation and is not modelled. -/
structure Violation where
  value_type : String
  value : ℚ
  threshold : ℚ
  isUpper : Bool
deriving DecidableEq, Repr

/-- One entry of the `alert_messages` list built in lines 134–145: a tier
header, a violation message, or the `f"... and {n} more violations"` line. -/
inductive AlertMsg where
  | errorHeader
  | warningHeader
  | violation (v : Violation)
  | andMore (n : Nat)
deriving DecidableEq, Repr

/-- One iteration of the classification loop (lines 123–131) restricted
to its `error_violations` effect: the `if`/`elif` chain appends to
`error_violations` exactly when `value > HIGH_ERROR_THRESHOLD` or
(`elif`) `value < LOW_ERROR_THRESHOLD`. -/
def errSel (tv : String × ℚ) : Option Violation :=
  if tv.2 > HIGH_ERROR_THRESHOLD then some ⟨tv.1, tv.2, HIGH_ERROR_THRESHOLD, true⟩
  else if tv.2 < LOW_ERROR_THRESHOLD then some ⟨tv.1, tv.2, LOW_ERROR_THRESHOLD, false⟩
  else none

/-- One iteration of the classification loop (lines 123–131) restricted
to its `warning_violations` effect: the warning branches are `elif`s, so
they are reached only when neither error bound is breached. -/
def warnSel (tv : String × ℚ) : Option Violation :=
  if tv.2 > HIGH_ERROR_THRESHOLD ∨ tv.2 < LOW_ERROR_THRESHOLD then none
  else if tv.2 > HIGH_WARNING_THRESHOLD then some ⟨tv.1, tv.2, HIGH_WARNING_THRESHOLD, true⟩
  else if tv.2 < LOW_WARNING_THRESHOLD then some ⟨tv.1, tv.2, LOW_WARNING_THRESHOLD, false⟩
  else none

/-- The body of `for value_type, value in values_to_check` (lines 123–131),
carrying the pair `(error_violations, warning_violations)`. -/
def violationsStep (acc : List Violation × List Violation) (tv : String × ℚ) :
    List Violation × List Violation :=
  if tv.2 > HIGH_ERROR_THRESHOLD then
    (acc.1 ++ [⟨tv.1, tv.2, HIGH_ERROR_THRESHOLD, true⟩], acc.2)
  else if tv.2 < LOW_ERROR_THRESHOLD then
    (acc.1 ++ [⟨tv.1, tv.2, LOW_ERROR_THRESHOLD, false⟩], acc.2)
  else if tv.2 > HIGH_WARNING_THRESHOLD then
    (acc.1, acc.2 ++ [⟨tv.1, tv.2, HIGH_WARNING_THRESHOLD, true⟩])
  else if tv.2 < LOW_WARNING_THRESHOLD then
    (acc.1, acc.2 ++ [⟨tv.1, tv.2, LOW_WARNING_THRESHOLD, false⟩])
  else acc

/-- The classification loop of `check_thresholds` (lines 120–131):
`(error_violations, warning_violations)` after scanning `values`. -/
def violationsOf (values : List (String × ℚ)) : List Violation × List Violation :=
  values.foldl violationsStep ([], [])

/-- The `values_to_check` list of `check_thresholds` (lines 104–114):
the last sensor value labelled `'Current Sensor'` when `sensor_data` is
non-empty, followed by every forecast value labelled `'Forecast'`. -/
def values_to_check (sensor_data forecasts : List ℚ) : List (String × ℚ) :=
  (match sensor_data.getLast? with
   | some v => [("Current Sensor", v)]
   | none => []) ++ forecasts.map (fun v => ("Forecast", v))

/-- `RealTimeForecastPlotter.check_thresholds` (lines 97–147) as a function
of the `plot_data` fields it reads (`sensor_data` and `forecasts`):
returns `(alert_status, alert_messages)`. The `try`/`except` wrapper never
fires in this total model (every operation in the body is total). -/
def check_thresholds (sensor_data forecasts : List ℚ) : Severity × List AlertMsg :=
  let values_list := values_to_check sensor_data forecasts
  if values_list = [] then (Severity.normal, [])
  else
    let error_violations := (violationsOf values_list).1
    let warning_violations := (violationsOf values_list).2
    if error_violations ≠ [] then
      (Severity.error,
        AlertMsg.errorHeader ::
          ((error_violations.take 3).map AlertMsg.violation ++
            (if 3 < error_violations.length then
              [AlertMsg.andMore (error_violations.length - 3)] else [])))
    else if warning_violations ≠ [] then
      (Severity.warning,
        AlertMsg.warningHeader ::
          ((warning_violations.take 3).map AlertMsg.violation ++
            (if 3 < warning_violations.length then
              [AlertMsg.andMore (warning_violations.length - 3)] else [])))
    else (Severity.normal, [])

/-- The violation carried by one `alert_messages` entry, if any. -/
def violationOf? : AlertMsg → Option Violation
  | AlertMsg.violation v => some v
  | _ => none

/-- The violation messages contained in an `alert_messages` list, in order. -/
def msgViolations (msgs : List AlertMsg) : List Violation :=
  msgs.filterMap violationOf?

/-- Severity rank used to express the spec's order Normal < Warning < Error. -/
def Severity.rank : Severity → Nat
  | Severity.normal => 0
  | Severity.warning => 1
  | Severity.error => 2

/-- Maximum of two severities in the order Normal < Warning < Error. -/
def sevMax (a b : Severity) : Severity :=
  if b.rank ≤ a.rank then a else b

/-- The severity a single observation is classified at, following the
spec's per-observation wording: an Error-level breach
(`value > highError` or `value < lowError`) takes precedence over a
Warning-level breach (`value > highWarning` or `value < lowWarning`). -/
def valueSeverity (v : ℚ) : Severity :=
  if v > HIGH_ERROR_THRESHOLD ∨ v < LOW_ERROR_THRESHOLD then Severity.error
  else if v > HIGH_WARNING_THRESHOLD ∨ v < LOW_WARNING_THRESHOLD then Severity.warning
  else Severity.normal

/-- The spec's aggregate severity: the highest per-observation severity
among all observations (Error > Warning > Normal), used to compare the
code's `alert_status` against the spec's wording. -/
def specAggregateSeverity (values : List (String × ℚ)) : Severity :=
  values.foldl (fun acc tv => sevMax acc (valueSeverity tv.2)) Severity.normal

/-! ### Alert state tracker (`Second_IoT_Screen.py`, lines 94–95, 153–166,
341–356) -/

/-- The mutable display state the tracker touches:
`self.current_background_color` (line 95; the figure/axes face colors are
kept identical to it by `update_background_color`), and the alert text
artist's content, color, box color and visibility (lines 348–353).
`update_alert_text` with an empty message list only hides the artist, so
the stale text fields persist invisibly, exactly as in the code. -/
@[ext]
structure TrackerState where
  current_background_color : String
  alert_visible : Bool
  alert_text_msgs : List AlertMsg
  alert_text_color : String
  alert_bbox_color : String
deriving DecidableEq, Repr

/-- The `color_map` dict of `update_background_color` (lines 155–159);
`color_map.get(alert_status, 'white')` never falls through to the default
because `alert_status` ranges over the three keys. -/
def color_map (alert_status : Severity) : String :=
  match alert_status with
  | Severity.normal => "white"
  | Severity.warning => "#FFFACD"
  | Severity.error => "#FFB6C1"

/-- `update_background_color` (lines 153–166): repaint and record the new
color only when it differs from the held one. -/
def update_background_color (st : TrackerState) (alert_status : Severity) :
    TrackerState :=
  let new_color := color_map alert_status
  if new_color ≠ st.current_background_color then
    { st with current_background_color := new_color }
  else st

/-- `text_color = 'red' if alert_status == 'error' else 'orange'` (line 345). -/
def alert_text_color_of (alert_status : Severity) : String :=
  if alert_status = Severity.error then "red" else "orange"

/-- `bg_color = '#FFE4E1' if alert_status == 'error' else '#FFF8DC'` (line 346). -/
def alert_bbox_color_of (alert_status : Severity) : String :=
  if alert_status = Severity.error then "#FFE4E1" else "#FFF8DC"

/-- `update_alert_text` (lines 341–356): with messages, set text, color,
box and make the artist visible; with no messages, only hide it. -/
def update_alert_text (st : TrackerState) (alert_status : Severity)
    (alert_messages : List AlertMsg) : TrackerState :=
  if alert_messages ≠ [] then
    { st with
        alert_text_msgs := alert_messages
        alert_text_color := alert_text_color_of alert_status
        alert_bbox_color := alert_bbox_color_of alert_status
        alert_visible := true }
  else
    { st with alert_visible := false }

/-- The tracker step of `update_plot` (lines 184–185):
`update_background_color(alert_status)` then
`update_alert_text(alert_status, alert_messages)`. -/
def trackerUpdate (st : TrackerState) (alert_status : Severity)
    (alert_messages : List AlertMsg) : TrackerState :=
  update_alert_text (update_background_color st alert_status) alert_status
    alert_messages

/-! ### Threshold configuration and startup (`Second_IoT_Screen.py`) -/

/-- The four threshold constants in source order (lines 22–25). -/
structure Thresholds where
  low_warning : ℚ
  low_error : ℚ
  high_warning : ℚ
  high_error : ℚ
deriving DecidableEq, Repr

/-- The configuration hard-coded at lines 22–25. -/
def configuredThresholds : Thresholds := ⟨18, 10, 25, 30⟩

/-- The spec's configuration invariant
`lowError < lowWarning < highWarning < highError`. -/
def validThresholdConfig (t : Thresholds) : Prop :=
  t.low_error < t.low_warning ∧ t.low_warning < t.high_warning ∧
    t.high_warning < t.high_error

instance (t : Thresholds) : Decidable (validThresholdConfig t) := by
  unfold validThresholdConfig
  infer_instance

/-- The startup-time error taxonomy the spec names for the consumer. -/
inductive StartupError where
  | invalidThresholdConfig
deriving DecidableEq, Repr

/-- `Second_IoT_Screen` startup (module level, lines 22–38, and `main`,
lines 389–408) viewed as a function of the threshold configuration: the
module performs no check whatsoever on the thresholds — they are read
only inside `check_thresholds` and for display/printing — so startup
unconditionally proceeds to connect, subscribe and start the render loop.
The `Except StartupError` codomain provides the error channel the spec
names; no code path ever takes it. -/
def startup (_t : Thresholds) : Except StartupError Unit :=
  Except.ok ()

/-! ### Stream ingestion (`Broker_Forecasting_Temperature_file.py`,
`on_message`, lines 101–146) -/

/-- A decoded `Reading` in the spec's sense (§3): a value and a timestamp,
both present. -/
structure Reading where
  value : ℚ
  timestamp : ℤ
deriving DecidableEq, Repr

/-- An inbound MQTT payload as `on_message` sees it.
`invalid` covers every payload on which line 103–105 raises
(`json.loads` fails, or the decoded value is not a dict so `.get` raises);
`object t ts` covers a decoded JSON object, whose `temperature` and
`timestamp` fields `dict.get` returns as present values or `None`. -/
inductive Payload where
  | invalid
  | object (temperature : Option ℚ) (timestamp : Option ℤ)
deriving DecidableEq, Repr

/-- Whether a payload decodes into a `Reading` in the spec's sense:
a JSON object carrying both a temperature and a timestamp. -/
def decodesToReading (p : Payload) : Option Reading :=
  match p with
  | Payload.invalid => none
  | Payload.object (some v) (some ts) => some ⟨v, ts⟩
  | Payload.object _ _ => none

/-- The two per-sensor window deques of the broker
(`temperatures`, `timestamps`, lines 24–25). Their elements are options
because `data.get(...)` yields `None` for a missing field and the code
appends that result unconditionally (lines 104–108). -/
structure BrokerState where
  temperatures : List (Option ℚ)
  timestamps : List (Option ℤ)
deriving DecidableEq, Repr

/-- The window-mutation effect of `on_message` (lines 101–146).
On `invalid`, the exception is raised before any `append`, is caught by
the `except` at line 145 and logged: the state is unchanged.
On a decoded object, `data.get('temperature')` and `data.get('timestamp')`
are appended to the bounded deques whether or not the fields are present.
The forecasting/publishing tail (lines 109–141) reads but never mutates
the deques, so it does not appear in the state transition. -/
def broker_on_message (st : BrokerState) (msg : Payload) : BrokerState :=
  match msg with
  | Payload.invalid => st
  | Payload.object temp ts =>
      { temperatures := dequeAppend lookback st.temperatures temp
        timestamps := dequeAppend lookback st.timestamps ts }

end IoTPipeline

namespace IoTPipeline

/-! ### Sliding-window lemmas -/

theorem dequeAppend_full {α : Type} {L : Nat} (q : List α) (x : α)
    (hq : q.length = L) (hL : 0 < L) : dequeAppend L q x = q.drop 1 ++ [x] := by
  unfold dequeAppend
  have hlen : (q ++ [x]).length = L + 1 := by simp [hq]
  rw [if_pos (by omega)]
  rw [hlen]
  have h1 : L + 1 - L = 1 := by omega
  rw [h1]
  cases q with
  | nil => rw [List.length_nil] at hq; omega
  | cons a q' => simp

theorem windowAfter_append {α : Type} (L : Nat) (rs : List α) (x : α) :
    windowAfter L (rs ++ [x]) = dequeAppend L (windowAfter L rs) x := by
  unfold windowAfter
  rw [List.foldl_append]
  rfl

theorem windowAfter_eq {α : Type} (L : Nat) (rs : List α) :
    windowAfter L rs = rs.drop (rs.length - L) := by
  induction rs using List.reverseRecOn with
  | nil => simp [windowAfter]
  | append_singleton rs x ih =>
      rw [windowAfter_append, ih]
      rcases le_or_lt (rs.length + 1) L with h | h
      · have h0 : rs.length - L = 0 := by omega
        have h1 : (rs ++ [x]).length - L = 0 := by simp; omega
        rw [h0, h1]
        unfold dequeAppend
        rw [if_neg (by simp; omega)]
        simp
      · -- the window is full: L ≤ rs.length
        have hL : L ≤ rs.length := by omega
        rcases Nat.eq_zero_or_pos L with h0 | h0
        · subst h0
          simp [dequeAppend]
        · have hw : (rs.drop (rs.length - L)).length = L := by
            rw [List.length_drop]; omega
          rw [dequeAppend_full _ _ hw h0]
          have hdd : (rs.drop (rs.length - L)).drop 1 = rs.drop (rs.length + 1 - L) := by
            rw [List.drop_drop]
            congr 1
            omega
          rw [hdd]
          have hle : rs.length + 1 - L ≤ rs.length := by omega
          have hlen2 : (rs ++ [x]).length = rs.length + 1 := by simp
          rw [hlen2, List.drop_append_of_le_length hle]

theorem windowAfter_length {α : Type} (L : Nat) (rs : List α) :
    (windowAfter L rs).length = min rs.length L := by
  rw [windowAfter_eq, List.length_drop]
  omega

/-! ### Rolling-forecast lemmas -/

theorem bufAt_shift (model : List ℚ → ℚ) (w : List ℚ) (i : Nat) :
    bufAt model (w.drop 1 ++ [model w]) i = bufAt model w (i + 1) := by
  induction i with
  | zero => rfl
  | succ i ih => simp only [bufAt, ih]

theorem rollLoop_eq_map (model : List ℚ → ℚ) (n : Nat) (w : List ℚ) :
    rollLoop model n w = (List.range n).map (fun i => model (bufAt model w i)) := by
  induction n generalizing w with
  | zero => rfl
  | succ n ih =>
      rw [rollLoop, ih, List.range_succ_eq_map]
      simp only [List.map_cons, List.map_map]
      refine congrArg₂ List.cons rfl ?_
      refine List.map_congr_left ?_
      intro i _
      simp only [Function.comp_apply, bufAt_shift]

theorem rollLoop_length (model : List ℚ → ℚ) (n : Nat) (w : List ℚ) :
    (rollLoop model n w).length = n := by
  induction n generalizing w with
  | zero => rfl
  | succ n ih => simp [rollLoop, ih]

theorem bufAt_length (model : List ℚ → ℚ) (w : List ℚ) {L : Nat}
    (hw : w.length = L) (hL : 0 < L) (i : Nat) :
    (bufAt model w i).length = L := by
  induction i with
  | zero => exact hw
  | succ i ih =>
      simp only [bufAt, List.length_append, List.length_drop, ih]
      simp
      omega

/-! ### Classifier lemmas -/

theorem filterMap_cons_toList {α β : Type} (f : α → Option β) (x : α) (l : List α) :
    (x :: l).filterMap f = (f x).toList ++ l.filterMap f := by
  cases h : f x <;> simp [List.filterMap_cons, h]

theorem violationsStep_eq (acc : List Violation × List Violation) (tv : String × ℚ) :
    violationsStep acc tv = (acc.1 ++ (errSel tv).toList, acc.2 ++ (warnSel tv).toList) := by
  unfold violationsStep errSel warnSel
  split_ifs with h1 h2 h3 h4 <;> simp_all
  all_goals (exfalso; rcases ‹_ ∨ _› with h | h <;> linarith)

theorem violationsOf_go (l : List (String × ℚ)) (a b : List Violation) :
    l.foldl violationsStep (a, b) = (a ++ l.filterMap errSel, b ++ l.filterMap warnSel) := by
  induction l generalizing a b with
  | nil => simp
  | cons tv l ih =>
      rw [List.foldl_cons, violationsStep_eq, ih,
        filterMap_cons_toList, filterMap_cons_toList]
      simp

theorem violationsOf_eq (values : List (String × ℚ)) :
    violationsOf values = (values.filterMap errSel, values.filterMap warnSel) := by
  unfold violationsOf
  rw [violationsOf_go]
  simp

theorem errSel_eq_none_iff (tv : String × ℚ) :
    errSel tv = none ↔ valueSeverity tv.2 ≠ Severity.error := by
  unfold errSel valueSeverity
  split_ifs <;> simp_all
  all_goals (exfalso; rcases ‹_ ∨ _› with h | h <;> linarith)

theorem warnSel_eq_none_iff (tv : String × ℚ) :
    warnSel tv = none ↔ valueSeverity tv.2 ≠ Severity.warning := by
  unfold warnSel valueSeverity
  split_ifs <;> simp_all
  all_goals (exfalso; rcases ‹_ ∨ _› with h | h <;> linarith)

theorem sevMax_eq_error_iff (a s : Severity) :
    sevMax a s = Severity.error ↔ a = Severity.error ∨ s = Severity.error := by
  cases a <;> cases s <;> simp [sevMax, Severity.rank]

theorem sevMax_eq_normal_iff (a s : Severity) :
    sevMax a s = Severity.normal ↔ a = Severity.normal ∧ s = Severity.normal := by
  cases a <;> cases s <;> simp [sevMax, Severity.rank]

theorem foldl_sevMax_error (l : List (String × ℚ)) (a : Severity) :
    l.foldl (fun acc tv => sevMax acc (valueSeverity tv.2)) a = Severity.error ↔
      a = Severity.error ∨ ∃ tv ∈ l, valueSeverity tv.2 = Severity.error := by
  induction l generalizing a with
  | nil => simp
  | cons tv l ih =>
      rw [List.foldl_cons, ih]
      simp only [sevMax_eq_error_iff, List.mem_cons]
      constructor
      · rintro (⟨h | h⟩ | ⟨x, hx, h⟩)
        · exact Or.inl h
        · exact Or.inr ⟨tv, Or.inl rfl, h⟩
        · exact Or.inr ⟨x, Or.inr hx, h⟩
      · rintro (h | ⟨x, (rfl | hx), h⟩)
        · exact Or.inl (Or.inl h)
        · exact Or.inl (Or.inr h)
        · exact Or.inr ⟨x, hx, h⟩

theorem foldl_sevMax_normal (l : List (String × ℚ)) (a : Severity) :
    l.foldl (fun acc tv => sevMax acc (valueSeverity tv.2)) a = Severity.normal ↔
      a = Severity.normal ∧ ∀ tv ∈ l, valueSeverity tv.2 = Severity.normal := by
  induction l generalizing a with
  | nil => simp
  | cons tv l ih =>
      rw [List.foldl_cons, ih]
      simp only [sevMax_eq_normal_iff, List.mem_cons]
      constructor
      · rintro ⟨⟨ha, htv⟩, hl⟩
        refine ⟨ha, ?_⟩
        rintro x (rfl | hx)
        · exact htv
        · exact hl x hx
      · rintro ⟨ha, h⟩
        exact ⟨⟨ha, h tv (Or.inl rfl)⟩, fun x hx => h x (Or.inr hx)⟩

theorem specAggregateSeverity_error (values : List (String × ℚ)) :
    specAggregateSeverity values = Severity.error ↔
      ∃ tv ∈ values, valueSeverity tv.2 = Severity.error := by
  unfold specAggregateSeverity
  rw [foldl_sevMax_error]
  simp

theorem specAggregateSeverity_normal (values : List (String × ℚ)) :
    specAggregateSeverity values = Severity.normal ↔
      ∀ tv ∈ values, valueSeverity tv.2 = Severity.normal := by
  unfold specAggregateSeverity
  rw [foldl_sevMax_normal]
  simp

theorem check_thresholds_fst (sd fc : List ℚ) :
    (check_thresholds sd fc).1 = specAggregateSeverity (values_to_check sd fc) := by
  by_cases h0 : values_to_check sd fc = []
  · rw [(specAggregateSeverity_normal _).mpr (by simp [h0])]
    simp [check_thresholds, h0]
  · by_cases he : (values_to_check sd fc).filterMap errSel = []
    · by_cases hw : (values_to_check sd fc).filterMap warnSel = []
      · have hall : ∀ tv ∈ values_to_check sd fc,
            valueSeverity tv.2 = Severity.normal := by
          intro tv htv
          have h1 := (errSel_eq_none_iff tv).mp
            (List.filterMap_eq_nil_iff.mp he tv htv)
          have h2 := (warnSel_eq_none_iff tv).mp
            (List.filterMap_eq_nil_iff.mp hw tv htv)
          cases hc : valueSeverity tv.2 <;> simp_all
        rw [(specAggregateSeverity_normal _).mpr hall]
        simp [check_thresholds, h0, violationsOf_eq, he, hw]
      · -- warning tier: no error breach, at least one warning breach
        have hne : ∀ tv ∈ values_to_check sd fc,
            valueSeverity tv.2 ≠ Severity.error := by
          intro tv htv
          exact (errSel_eq_none_iff tv).mp (List.filterMap_eq_nil_iff.mp he tv htv)
        have hex : ∃ tv ∈ values_to_check sd fc,
            valueSeverity tv.2 = Severity.warning := by
          have : ¬ ∀ tv ∈ values_to_check sd fc, warnSel tv = none := by
            intro hcon
            exact hw (List.filterMap_eq_nil_iff.mpr hcon)
          push_neg at this
          obtain ⟨tv, htv, hh⟩ := this
          refine ⟨tv, htv, ?_⟩
          by_contra hcon
          exact hh ((warnSel_eq_none_iff tv).mpr hcon)
        have hsev : specAggregateSeverity (values_to_check sd fc) = Severity.warning := by
          cases hs : specAggregateSeverity (values_to_check sd fc)
          · obtain ⟨tv, htv, hh⟩ := hex
            have := (specAggregateSeverity_normal _).mp hs tv htv
            simp_all
          · rfl
          · obtain ⟨tv, htv, hh⟩ := (specAggregateSeverity_error _).mp hs
            exact absurd hh (hne tv htv)
        rw [hsev]
        simp [check_thresholds, h0, violationsOf_eq, he, hw]
    · -- error tier: some error breach
      have hex : ∃ tv ∈ values_to_check sd fc,
          valueSeverity tv.2 = Severity.error := by
        have : ¬ ∀ tv ∈ values_to_check sd fc, errSel tv = none := by
          intro hcon
          exact he (List.filterMap_eq_nil_iff.mpr hcon)
        push_neg at this
        obtain ⟨tv, htv, hh⟩ := this
        refine ⟨tv, htv, ?_⟩
        by_contra hcon
        exact hh ((errSel_eq_none_iff tv).mpr hcon)
      rw [(specAggregateSeverity_error _).mpr hex]
      simp [check_thresholds, h0, violationsOf_eq, he]

theorem check_thresholds_snd (sd fc : List ℚ) :
    (check_thresholds sd fc).2 =
      (if (values_to_check sd fc).filterMap errSel ≠ [] then
        AlertMsg.errorHeader ::
          ((((values_to_check sd fc).filterMap errSel).take 3).map AlertMsg.violation ++
            (if 3 < ((values_to_check sd fc).filterMap errSel).length then
              [AlertMsg.andMore (((values_to_check sd fc).filterMap errSel).length - 3)]
            else []))
      else if (values_to_check sd fc).filterMap warnSel ≠ [] then
        AlertMsg.warningHeader ::
          ((((values_to_check sd fc).filterMap warnSel).take 3).map AlertMsg.violation ++
            (if 3 < ((values_to_check sd fc).filterMap warnSel).length then
              [AlertMsg.andMore (((values_to_check sd fc).filterMap warnSel).length - 3)]
            else []))
      else []) := by
  by_cases h0 : values_to_check sd fc = []
  · simp [check_thresholds, h0]
  · simp only [check_thresholds, violationsOf_eq, if_neg h0]
    split_ifs <;> rfl

/-! ### Alert state tracker lemmas -/

theorem trackerUpdate_nil_eq (bg : String) (vis : Bool) (ms : List AlertMsg)
    (tc bc : String) (s : Severity) :
    trackerUpdate ⟨bg, vis, ms, tc, bc⟩ s [] = ⟨color_map s, false, ms, tc, bc⟩ := by
  unfold trackerUpdate update_alert_text update_background_color
  by_cases hc : color_map s = bg <;> simp [hc]

theorem trackerUpdate_cons_eq (bg : String) (vis : Bool) (ms : List AlertMsg)
    (tc bc : String) (s : Severity) (m : List AlertMsg) (hm : m ≠ []) :
    trackerUpdate ⟨bg, vis, ms, tc, bc⟩ s m =
      ⟨color_map s, true, m, alert_text_color_of s, alert_bbox_color_of s⟩ := by
  unfold trackerUpdate update_alert_text update_background_color
  by_cases hc : color_map s = bg <;> simp [hc, hm]

theorem color_map_inj (a b : Severity) (h : color_map a = color_map b) : a = b := by
  cases a <;> cases b <;> simp_all [color_map]

theorem trackerUpdate_idem (st : TrackerState) (s : Severity) (m : List AlertMsg) :
    trackerUpdate (trackerUpdate st s m) s m = trackerUpdate st s m := by
  cases st with
  | mk bg vis ms tc bc =>
      cases m with
      | nil => rw [trackerUpdate_nil_eq, trackerUpdate_nil_eq]
      | cons x xs =>
          rw [trackerUpdate_cons_eq bg vis ms tc bc s (x :: xs) (by simp),
            trackerUpdate_cons_eq _ _ _ _ _ s (x :: xs) (by simp)]

/-! ### Message-list lemmas for the violation cap -/

theorem msgViolations_nil : msgViolations [] = [] := rfl

theorem violationOf?_none (hd : AlertMsg) (hhd : ∀ v, hd ≠ AlertMsg.violation v) :
    violationOf? hd = none := by
  cases hd
  · rfl
  · rfl
  · exact absurd rfl (hhd _)
  · rfl

theorem msgViolations_block (hd : AlertMsg) (vs : List Violation)
    (hhd : ∀ v, hd ≠ AlertMsg.violation v) (k : Nat) (p : Prop) [Decidable p] :
    msgViolations (hd :: (vs.map AlertMsg.violation ++
      (if p then [AlertMsg.andMore k] else []))) = vs := by
  unfold msgViolations
  have hc : (violationOf? ∘ AlertMsg.violation) = some := rfl
  simp only [List.filterMap_cons, violationOf?_none hd hhd,
    List.filterMap_append, List.filterMap_map, hc, List.filterMap_some]
  split_ifs <;> simp [violationOf?]

theorem andMore_not_mem_map_take (l : List Violation) (k n : Nat) :
    AlertMsg.andMore n ∉ (l.map AlertMsg.violation).take k := by
  intro h
  rcases List.mem_map.mp (List.mem_of_mem_take h) with ⟨v, -, hv⟩
  exact AlertMsg.noConfusion hv

theorem msgViolations_eq (sd fc : List ℚ) :
    msgViolations (check_thresholds sd fc).2 =
      (if (values_to_check sd fc).filterMap errSel ≠ [] then
        ((values_to_check sd fc).filterMap errSel).take 3
      else ((values_to_check sd fc).filterMap warnSel).take 3) := by
  rw [check_thresholds_snd]
  by_cases he : (values_to_check sd fc).filterMap errSel = []
  · rw [if_neg (not_not_intro he), if_neg (not_not_intro he)]
    by_cases hw : (values_to_check sd fc).filterMap warnSel = []
    · rw [if_neg (not_not_intro hw), hw]
      simp [msgViolations_nil]
    · rw [if_pos hw, msgViolations_block _ _ (by intro v; simp) _ _]
  · rw [if_pos he, if_pos he, msgViolations_block _ _ (by intro v; simp) _ _]

theorem msgViolations_le_three (sd fc : List ℚ) :
    (msgViolations (check_thresholds sd fc).2).length ≤ 3 := by
  rw [msgViolations_eq]
  split_ifs <;> simp [List.length_take]

theorem andMore_mem_iff (sd fc : List ℚ) (n : Nat) :
    AlertMsg.andMore n ∈ (check_thresholds sd fc).2 ↔
      ((3 < ((values_to_check sd fc).filterMap errSel).length ∧
          n = ((values_to_check sd fc).filterMap errSel).length - 3) ∨
        ((values_to_check sd fc).filterMap errSel = [] ∧
          3 < ((values_to_check sd fc).filterMap warnSel).length ∧
          n = ((values_to_check sd fc).filterMap warnSel).length - 3)) := by
  rw [check_thresholds_snd]
  by_cases he : (values_to_check sd fc).filterMap errSel = []
  · rw [if_neg (not_not_intro he)]
    by_cases hw : (values_to_check sd fc).filterMap warnSel = []
    · rw [if_neg (not_not_intro hw)]
      simp [he, hw]
    · rw [if_pos hw]
      by_cases hlen : 3 < ((values_to_check sd fc).filterMap warnSel).length
      · rw [if_pos hlen]
        simp [he, hlen, andMore_not_mem_map_take]
      · rw [if_neg hlen]
        simp [he, hlen, andMore_not_mem_map_take]
  · rw [if_pos he]
    by_cases hlen : 3 < ((values_to_check sd fc).filterMap errSel).length
    · rw [if_pos hlen]
      simp [he, hlen, andMore_not_mem_map_take]
    · rw [if_neg hlen]
      simp [he, hlen, andMore_not_mem_map_take]

theorem andMore_last (sd fc : List ℚ) (n : Nat)
    (hmem : AlertMsg.andMore n ∈ (check_thresholds sd fc).2) :
    (check_thresholds sd fc).2.getLast? = some (AlertMsg.andMore n) := by
  rcases (andMore_mem_iff sd fc n).mp hmem with ⟨hlen, hn⟩ | ⟨he, hlen, hn⟩
  · have he : (values_to_check sd fc).filterMap errSel ≠ [] := by
      intro hcon
      rw [hcon] at hlen
      simp at hlen
    rw [check_thresholds_snd, if_pos he, if_pos hlen, ← List.cons_append,
      List.getLast?_concat, hn]
  · rw [check_thresholds_snd, if_neg (by simp [he]), hn]
    have hw : (values_to_check sd fc).filterMap warnSel ≠ [] := by
      intro hcon
      rw [hcon] at hlen
      simp at hlen
    rw [if_pos hw, if_pos hlen, ← List.cons_append, List.getLast?_concat]

theorem sevMax_normal_left (s : Severity) : sevMax Severity.normal s = s := by
  cases s <;> rfl

/-! ## Claim theorems -/

/-- Claim C1: for every input window of exactly `lookback` values and every
predictor, the rolling forecast of `predict_with_loaded_model` keeps a
working buffer initialized to the (scaled) input window; step `i` outputs
the predictor applied to the current buffer and slides the buffer by
dropping its oldest element and appending that prediction, the buffer
length staying `lookback` throughout; the result has exactly
`number_of_future_forecasts` values. Each buffer `bufAt model w i` is
built from the initial window and the predictions of steps `< i` only, so
no step ever consumes later ground truth. -/
theorem C1_rolling_forecast (model : List ℚ → ℚ) (scaler : Scaler) (w : List ℚ)
    (hw : w.length = lookback) :
    (predict_with_loaded_model model scaler w).length = number_of_future_forecasts
  ∧ (∀ i, (bufAt model (w.map scaler.transform) i).length = lookback)
  ∧ rollLoop model number_of_future_forecasts (w.map scaler.transform) =
      (List.range number_of_future_forecasts).map
        (fun i => model (bufAt model (w.map scaler.transform) i))
  ∧ bufAt model (w.map scaler.transform) 0 = w.map scaler.transform
  ∧ (∀ i, bufAt model (w.map scaler.transform) (i + 1) =
      (bufAt model (w.map scaler.transform) i).drop 1 ++
        [model (bufAt model (w.map scaler.transform) i)])
  ∧ predict_with_loaded_model model scaler w =
      (rollLoop model number_of_future_forecasts (w.map scaler.transform)).map
        scaler.inverse_transform := by
  have hsc : (w.map scaler.transform).length = lookback := by simp [hw]
  refine ⟨?_, ?_, rollLoop_eq_map _ _ _, rfl, fun i => rfl, rfl⟩
  · unfold predict_with_loaded_model
    simp [rollLoop_length]
  · intro i
    exact bufAt_length model _ hsc (by norm_num [lookback]) i

/-- Witness for C1: a concrete window of length 10 with a stub predictor. -/
theorem C1_rolling_forecast_witness :
    (predict_with_loaded_model (fun _ => (0 : ℚ)) ⟨fun x => x, fun x => x⟩
      (List.replicate 10 0)).length = number_of_future_forecasts :=
  (C1_rolling_forecast (fun _ => (0 : ℚ)) ⟨fun x => x, fun x => x⟩
    (List.replicate 10 0) (by simp [lookback])).1

/-- Claim C2: after appending any sequence of readings one by one, the
window holds exactly the last `min N lookback` readings in arrival order
(`rs.drop (rs.length - lookback)`), its length is `min N lookback` (so it
never exceeds `lookback`), eviction at capacity is strict FIFO (the oldest
entry is dropped), and `lookback = 10`. -/
theorem C2_sliding_window (rs : List ℚ) (q : List ℚ) (x : ℚ)
    (hq : q.length = lookback) :
    windowAfter lookback rs = rs.drop (rs.length - lookback)
  ∧ (windowAfter lookback rs).length = min rs.length lookback
  ∧ dequeAppend lookback q x = q.drop 1 ++ [x]
  ∧ lookback = 10 :=
  ⟨windowAfter_eq _ _, windowAfter_length _ _,
    dequeAppend_full q x hq (by norm_num [lookback]), rfl⟩

/-- Witness for C2: twelve readings leave exactly the last ten, and a full
window evicts its oldest entry. -/
theorem C2_sliding_window_witness :
    windowAfter lookback [(1 : ℚ), 2, 3, 4, 5, 6, 7, 8, 9, 10, 11, 12] =
        [(3 : ℚ), 4, 5, 6, 7, 8, 9, 10, 11, 12]
  ∧ dequeAppend lookback (List.replicate 10 (0 : ℚ)) 7 =
      (List.replicate 10 (0 : ℚ)).drop 1 ++ [7] := by
  have h := C2_sliding_window [(1 : ℚ), 2, 3, 4, 5, 6, 7, 8, 9, 10, 11, 12]
    (List.replicate 10 0) 7 (by simp [lookback])
  exact ⟨by rw [h.1]; rfl, h.2.2.1⟩

/-- Claim C3: `check_thresholds` classifies an observation as an
Error-level breach exactly when `value > HIGH_ERROR_THRESHOLD` or
`value < LOW_ERROR_THRESHOLD`, Error takes precedence over Warning for
the same observation (an error breach never lands in the warning list),
the aggregate `alert_status` is the maximum per-observation severity
(Error > Warning > Normal) over all observations, and on the concrete
inputs: 5.0 is Error (below 10.0), 20.0 Normal, 27.0 Warning, 35.0 Error,
and the mixed input [5.0, 27.0] yields aggregate Error with the Error
entry listed. -/
theorem C3_threshold_classifier (sd fc : List ℚ) :
    (check_thresholds sd fc).1 = specAggregateSeverity (values_to_check sd fc)
  ∧ (∀ tv : String × ℚ, errSel tv ≠ none ↔
      (tv.2 > HIGH_ERROR_THRESHOLD ∨ tv.2 < LOW_ERROR_THRESHOLD))
  ∧ (∀ tv : String × ℚ, errSel tv ≠ none → warnSel tv = none)
  ∧ (check_thresholds [5] []).1 = Severity.error
  ∧ (check_thresholds [20] []).1 = Severity.normal
  ∧ (check_thresholds [27] []).1 = Severity.warning
  ∧ (check_thresholds [35] []).1 = Severity.error
  ∧ check_thresholds [5] [27] =
      (Severity.error,
        [AlertMsg.errorHeader,
          AlertMsg.violation ⟨"Current Sensor", 5, LOW_ERROR_THRESHOLD, false⟩]) := by
  refine ⟨check_thresholds_fst sd fc, ?_, ?_, by decide, by decide, by decide,
    by decide, by decide⟩
  · intro tv
    unfold errSel
    split_ifs <;> simp_all
  · intro tv h
    have hcond : tv.2 > HIGH_ERROR_THRESHOLD ∨ tv.2 < LOW_ERROR_THRESHOLD := by
      by_contra hcon
      push_neg at hcon
      unfold errSel at h
      rw [if_neg (not_lt.mpr hcon.1), if_neg (not_lt.mpr hcon.2)] at h
      exact h rfl
    unfold warnSel
    rw [if_pos hcond]

/-- Witness for C3: the error-breaching observation 35.0 is kept out of the
warning list. -/
theorem C3_threshold_classifier_witness : warnSel ("Forecast", 35) = none :=
  (C3_threshold_classifier [] []).2.2.1 ("Forecast", 35) (by decide)

/-- Claim C4: the future-timestamp list has length exactly
`number_of_future_forecasts`; its `i`-th entry (0-indexed) is exactly
`T + (i+1) * one_day`, computed from the base `T`; the list is strictly
increasing, consecutive entries are exactly `one_day` apart, and the
first entry is one step after `T`. -/
theorem C4_future_timestamps (T : ℤ) (i : Nat)
    (hi : i < number_of_future_forecasts) :
    (future_timestamps_from T).length = number_of_future_forecasts
  ∧ (future_timestamps_from T)[i]? = some (T + ((i : ℤ) + 1) * one_day)
  ∧ List.Pairwise (· < ·) (future_timestamps_from T)
  ∧ (i + 1 < number_of_future_forecasts →
      ∀ a b, (future_timestamps_from T)[i]? = some a →
        (future_timestamps_from T)[i + 1]? = some b → b - a = one_day)
  ∧ (future_timestamps_from T).head? = some (T + one_day) := by
  refine ⟨?_, ?_, ?_, ?_, ?_⟩
  · unfold future_timestamps_from
    rw [List.length_map, List.length_range]
  · unfold future_timestamps_from
    rw [List.getElem?_map, List.getElem?_range hi, Option.map_some']
  · have hp : List.Pairwise
        (fun a b : Nat => T + ((a : ℤ) + 1) * one_day < T + ((b : ℤ) + 1) * one_day)
        (List.range number_of_future_forecasts) := by
      refine (List.pairwise_lt_range _).imp ?_
      intro a b hab
      have hcast : (a : ℤ) + 1 < (b : ℤ) + 1 := by exact_mod_cast Nat.succ_lt_succ hab
      have hd : (0 : ℤ) < one_day := by norm_num [one_day]
      have := mul_lt_mul_of_pos_right hcast hd
      linarith
    exact List.pairwise_map.mpr hp
  · intro hi1 a b ha hb
    unfold future_timestamps_from at ha hb
    rw [List.getElem?_map, List.getElem?_range hi, Option.map_some'] at ha
    rw [List.getElem?_map, List.getElem?_range hi1, Option.map_some'] at hb
    have ha2 := Option.some.inj ha
    have hb2 := Option.some.inj hb
    rw [← ha2, ← hb2]
    push_cast
    ring
  · unfold future_timestamps_from number_of_future_forecasts
    rw [List.range_succ_eq_map]
    simp [one_day]

/-- Witness for C4: the first two future timestamps from base 0 are one
day apart. -/
theorem C4_future_timestamps_witness :
    (0 : ℤ) + 1 < number_of_future_forecasts ∧
      ∀ a b, (future_timestamps_from 0)[0]? = some a →
        (future_timestamps_from 0)[1]? = some b → b - a = one_day :=
  ⟨by norm_num [number_of_future_forecasts],
    (C4_future_timestamps 0 0 (by norm_num [number_of_future_forecasts])).2.2.2.1
      (by norm_num [number_of_future_forecasts])⟩

/-- Claim C5: starting from the state held after an update with assessment
`(s0, m0)`, a further update is a visible state change (the resulting
display state differs) exactly when the new severity differs from the held
one or the message list content differs; in particular updating twice in a
row with one identical assessment changes the state at most on the first
call and never on the second. -/
theorem C5_alert_state_tracker (st : TrackerState) (s0 s1 : Severity)
    (m0 m1 : List AlertMsg) :
    (trackerUpdate (trackerUpdate st s0 m0) s1 m1 = trackerUpdate st s0 m0 ↔
      (s1 = s0 ∧ m1 = m0))
  ∧ trackerUpdate (trackerUpdate st s1 m1) s1 m1 = trackerUpdate st s1 m1 := by
  refine ⟨⟨?_, ?_⟩, trackerUpdate_idem st s1 m1⟩
  · intro h
    cases st with
    | mk bg vis ms tc bc =>
        cases m0 with
        | nil =>
            rw [trackerUpdate_nil_eq bg vis ms tc bc s0] at h
            cases m1 with
            | nil =>
                rw [trackerUpdate_nil_eq (color_map s0) false ms tc bc s1] at h
                have hb := congrArg TrackerState.current_background_color h
                simp at hb
                exact ⟨color_map_inj _ _ hb, rfl⟩
            | cons x xs =>
                rw [trackerUpdate_cons_eq (color_map s0) false ms tc bc s1
                  (x :: xs) (by simp)] at h
                have hv := congrArg TrackerState.alert_visible h
                simp at hv
        | cons y ys =>
            rw [trackerUpdate_cons_eq bg vis ms tc bc s0 (y :: ys) (by simp)] at h
            cases m1 with
            | nil =>
                rw [trackerUpdate_nil_eq (color_map s0) true (y :: ys)
                  (alert_text_color_of s0) (alert_bbox_color_of s0) s1] at h
                have hv := congrArg TrackerState.alert_visible h
                simp at hv
            | cons x xs =>
                rw [trackerUpdate_cons_eq (color_map s0) true (y :: ys)
                  (alert_text_color_of s0) (alert_bbox_color_of s0) s1
                  (x :: xs) (by simp)] at h
                have hb := congrArg TrackerState.current_background_color h
                have hm := congrArg TrackerState.alert_text_msgs h
                simp at hb hm
                exact ⟨color_map_inj _ _ hb, by rw [hm.1, hm.2]⟩
  · rintro ⟨rfl, rfl⟩
    exact trackerUpdate_idem st s1 m1

/-- Witness for C5: a concrete repeated identical update leaves the state
unchanged on the second call. -/
theorem C5_alert_state_tracker_witness :
    trackerUpdate
        (trackerUpdate ⟨"white", false, [], "", ""⟩ Severity.error [AlertMsg.errorHeader])
        Severity.error [AlertMsg.errorHeader] =
      trackerUpdate ⟨"white", false, [], "", ""⟩ Severity.error [AlertMsg.errorHeader] :=
  (C5_alert_state_tracker ⟨"white", false, [], "", ""⟩ Severity.error Severity.error
    [AlertMsg.errorHeader] [AlertMsg.errorHeader]).1.mpr ⟨rfl, rfl⟩

/-- Claim C6 counterexample: for the concrete configuration with
`low_error = 18` and `low_warning = 10` — which violates
`lowError < lowWarning < highWarning < highError` — startup does not fail
with `InvalidThresholdConfig`; the code contains no threshold validation
at all. -/
theorem C6_no_validation_counterexample :
    ¬ validThresholdConfig ⟨10, 18, 25, 30⟩ ∧
      startup ⟨10, 18, 25, 30⟩ ≠ Except.error StartupError.invalidThresholdConfig := by
  constructor
  · decide
  · intro h
    exact Except.noConfusion h

/-- Claim C6 (amended): startup performs no validation and proceeds for
every threshold configuration, and the hard-coded configuration
(lowError 10, lowWarning 18, highWarning 25, highError 30) does satisfy
`lowError < lowWarning < highWarning < highError`. -/
theorem C6_startup_thresholds (t : Thresholds) :
    startup t = Except.ok () ∧ validThresholdConfig configuredThresholds :=
  ⟨rfl, by decide⟩

/-- Claim C7 counterexample: the payload `\x7b\x7d` (a valid JSON object
with no fields) does not decode to a Reading, yet `on_message` appends its
missing fields as null entries, mutating the window — starting from empty
deques, the window is no longer empty. -/
theorem C7_malformed_payload_counterexample :
    decodesToReading (Payload.object none none) = none ∧
      broker_on_message ⟨[], []⟩ (Payload.object none none) ≠
        (⟨[], []⟩ : BrokerState) := by
  constructor
  · rfl
  · decide

/-- Claim C7 (amended): a payload on which JSON decoding raises is dropped
with the window left unchanged (the exception fires before any append and
is caught and logged), but a well-formed JSON object whose temperature or
timestamp field is missing is still appended — its `dict.get` results,
null included, enter the window deques. -/
theorem C7_ingestion_on_malformed (st : BrokerState) (t : Option ℚ)
    (ts : Option ℤ) :
    broker_on_message st Payload.invalid = st
  ∧ (broker_on_message st (Payload.object t ts)).temperatures =
      dequeAppend lookback st.temperatures t
  ∧ (broker_on_message st (Payload.object t ts)).timestamps =
      dequeAppend lookback st.timestamps ts
  ∧ broker_on_message ⟨[], []⟩ (Payload.object none none) =
      ⟨[none], [none]⟩ :=
  ⟨rfl, rfl, rfl, by decide⟩

/-- Claim C8: with an empty forecasts list, `check_thresholds` does not
fail and returns the severity computed from the current (last) sensor
value alone; with no values at all it returns `normal` with no
violations. -/
theorem C8_empty_forecasts (sd : List ℚ) :
    (check_thresholds sd []).1 =
      (match sd.getLast? with
       | some v => valueSeverity v
       | none => Severity.normal)
  ∧ check_thresholds [] [] = (Severity.normal, []) := by
  constructor
  · rw [check_thresholds_fst]
    cases h : sd.getLast? with
    | none => simp [values_to_check, h, specAggregateSeverity]
    | some v =>
        simp [values_to_check, h, specAggregateSeverity, sevMax_normal_left]
  · decide

/-- Claim C9: the violation messages list at most 3 entries (all from the
single tier that is rendered), the listed entries are the first three
violations of that tier in evaluation order (current sensor value first,
then the forecasts in order, as fixed by `values_to_check`), the
`... and N more` entry is present exactly when the rendered tier has more
than 3 violations with `N = total - 3`, and when present it is the last
message. -/
theorem C9_violation_cap (sd fc : List ℚ) (n : Nat) :
    (msgViolations (check_thresholds sd fc).2).length ≤ 3
  ∧ msgViolations (check_thresholds sd fc).2 =
      (if (values_to_check sd fc).filterMap errSel ≠ [] then
        ((values_to_check sd fc).filterMap errSel).take 3
      else ((values_to_check sd fc).filterMap warnSel).take 3)
  ∧ (AlertMsg.andMore n ∈ (check_thresholds sd fc).2 ↔
      ((3 < ((values_to_check sd fc).filterMap errSel).length ∧
          n = ((values_to_check sd fc).filterMap errSel).length - 3) ∨
        ((values_to_check sd fc).filterMap errSel = [] ∧
          3 < ((values_to_check sd fc).filterMap warnSel).length ∧
          n = ((values_to_check sd fc).filterMap warnSel).length - 3)))
  ∧ (AlertMsg.andMore n ∈ (check_thresholds sd fc).2 →
      (check_thresholds sd fc).2.getLast? = some (AlertMsg.andMore n))
  ∧ values_to_check sd fc =
      (match sd.getLast? with
       | some v => [("Current Sensor", v)]
       | none => []) ++ fc.map (fun v => ("Forecast", v)) :=
  ⟨msgViolations_le_three sd fc, msgViolations_eq sd fc, andMore_mem_iff sd fc n,
    fun hmem => andMore_last sd fc n hmem, rfl⟩

/-- Witness for C9: five error violations (sensor value 35 and four
forecasts above 30) produce three listed entries and a trailing
`... and 2 more` message. -/
theorem C9_violation_cap_witness :
    AlertMsg.andMore 2 ∈ (check_thresholds [35] [31, 32, 33, 34]).2 ∧
      (check_thresholds [35] [31, 32, 33, 34]).2.getLast? =
        some (AlertMsg.andMore 2) :=
  ⟨by decide,
    (C9_violation_cap [35] [31, 32, 33, 34] 2).2.2.2.1 (by decide)⟩

/-- Claim C10: all threshold comparisons are strict, so a value exactly at
a threshold does not breach it: 25.0 and 18.0 classify as Normal, while
30.0 and 10.0 classify as Warning (not Error), breaching only the next
inner (warning) bound. -/
theorem C10_strict_comparisons :
    (check_thresholds [25] []).1 = Severity.normal
  ∧ (check_thresholds [18] []).1 = Severity.normal
  ∧ (check_thresholds [30] []).1 = Severity.warning
  ∧ (check_thresholds [10] []).1 = Severity.warning
  ∧ violationsOf [("Current Sensor", 25)] = ([], [])
  ∧ violationsOf [("Current Sensor", 18)] = ([], [])
  ∧ (check_thresholds [30] []).2 =
      [AlertMsg.warningHeader,
        AlertMsg.violation ⟨"Current Sensor", 30, HIGH_WARNING_THRESHOLD, true⟩]
  ∧ (check_thresholds [10] []).2 =
      [AlertMsg.warningHeader,
        AlertMsg.violation ⟨"Current Sensor", 10, LOW_WARNING_THRESHOLD, false⟩] := by
  decide

end IoTPipeline
